import Mathlib

/-!
Verification of the tcp_ping_pong repository (src/server.py, src/client.py).

The development shallowly embeds the protocol engine: the server's response-id
allocator, per-connection line handler and keepalive broadcaster with their
connection registry, and the client's send/wait/reconnect state machine and
audit-log behaviour.  Randomness (the drop sample), wall-clock arrival times
of incoming lines and connection outcomes are passed in as explicit
parameters; timestamps are irrelevant to the verified properties and are
omitted from log entries.  Machine reals produced by random.random() are
modelled as rationals.
-/

/-- ASCII model of Python str.strip()'s whitespace test. -/
def pyIsSpace (c : Char) : Bool :=
  c = ' ' || c = '\t' || c = '\n' || c = '\r' || c = '\x0b' || c = '\x0c'

/-- Python str.strip() on a list of characters: drop whitespace at both ends. -/
def pyStripList (l : List Char) : List Char :=
  ((l.dropWhile pyIsSpace).reverse.dropWhile pyIsSpace).reverse

/-- Python str.strip(). -/
def pyStrip (s : String) : String :=
  String.mk (pyStripList s.toList)

/-- Digit-sequence payload of Python int(): digits with single interior
underscores permitted (PEP 515), accumulating the value. -/
def pyDigitsGo (acc : Nat) : List Char → Option Nat
  | [] => some acc
  | '_' :: rest =>
      match rest with
      | [] => Option.none
      | c :: cs => if c.isDigit then pyDigitsGo (acc * 10 + (c.toNat - 48)) cs else Option.none
  | c :: cs => if c.isDigit then pyDigitsGo (acc * 10 + (c.toNat - 48)) cs else Option.none

/-- Nonempty digit sequence (underscores only between digits), as in int(). -/
def pyDigits : List Char → Option Nat
  | [] => Option.none
  | c :: cs => if c.isDigit then pyDigitsGo (c.toNat - 48) cs else Option.none

/-- Python int(str) on ASCII text: strip whitespace, optional sign, digits.
Raising ValueError is modelled as Option.none. -/
def pyIntList (l : List Char) : Option Int :=
  match pyStripList l with
  | '+' :: rest => (pyDigits rest).map (fun n => (n : Int))
  | '-' :: rest => (pyDigits rest).map (fun n => -(n : Int))
  | rest => (pyDigits rest).map (fun n => (n : Int))

/-- Python int(str). -/
def pyInt (s : String) : Option Int :=
  pyIntList s.toList

/-- Helper for pyIn: does the needle occur at some position of the hay? -/
def pyInGo (needle : List Char) : List Char → Bool
  | [] => needle.isEmpty
  | c :: cs => needle.isPrefixOf (c :: cs) || pyInGo needle cs

/-- Python's substring containment test, needle in hay. -/
def pyIn (needle hay : String) : Bool :=
  pyInGo needle.toList hay.toList

/-! ## Server state (server.py, TCPServer.__init__) -/

/-- Server-side mutable state: the response-id allocator (response_counter),
the client-id allocator (client_counter) and the connection registry
(self.clients, a dict from writer handle to client id, kept here as an
insertion-ordered association list with unique keys). -/
structure ServerState where
  responseCounter : Nat
  clientCounter : Nat
  clients : List (Nat × Nat)
deriving DecidableEq

/-- A freshly constructed TCPServer: all counters 0, empty registry. -/
def freshServer : ServerState :=
  { responseCounter := 0, clientCounter := 0, clients := [] }

/-- TCPServer._get_next_client_id: increment, return new value (ids from 1). -/
def getNextClientId (st : ServerState) : Nat × ServerState :=
  (st.clientCounter + 1, { st with clientCounter := st.clientCounter + 1 })

/-- TCPServer._get_next_response_id: counter += 1; return counter - 1
(so the first id handed out is 0). -/
def getNextResponseId (st : ServerState) : Nat × ServerState :=
  (st.responseCounter + 1 - 1, { st with responseCounter := st.responseCounter + 1 })

/-- Python dict assignment d[k] = v: overwrite if present, else append. -/
def dictSet (k v : Nat) (d : List (Nat × Nat)) : List (Nat × Nat) :=
  if (d.lookup k).isSome then d.map (fun p => if p.1 = k then (k, v) else p)
  else d ++ [(k, v)]

/-- handle_client prologue: allocate a client id and register the writer
(self.clients[writer] = client_id). -/
def registerClient (w : Nat) (st : ServerState) : Nat × ServerState :=
  let cid := (getNextClientId st).1
  let st1 := (getNextClientId st).2
  (cid, { st1 with clients := dictSet w cid st1.clients })

/-- handle_client cleanup (finally block): del self.clients[writer].
Python del raises KeyError when the key is absent; that is the error case. -/
def handlerCleanup (w : Nat) (st : ServerState) : Except Unit ServerState :=
  if (st.clients.lookup w).isSome then
    Except.ok { st with clients := st.clients.filter (fun p => p.1 ≠ w) }
  else Except.error ()

/-- The fixed drop probability of server.py line 106: random.random() < 0.1. -/
def pDrop : ℚ := mkRat 1 10

/-- The server reply f-string of server.py line 125. -/
def pongMsg (responseId : Nat) (requestNum : Int) (clientId : Nat) : String :=
  "[" ++ toString responseId ++ "/" ++ toString requestNum ++ "] PONG (" ++ toString clientId ++ ")"

/-- The keepalive f-string of server.py line 156. -/
def keepaliveMsg (responseId : Nat) : String :=
  "[" ++ toString responseId ++ "] keepalive"

/-- Audit-log entries the server writes (TCPServer._write_log): a dropped
request (response fields "(проигнорировано)") or a completed exchange. -/
inductive ServerLogEntry where
  | ignored (request : String)
  | exchange (request response : String)
deriving DecidableEq

/-- What one iteration of handle_client's read loop did with a line. -/
inductive LineResult where
  | dropped
  | skipped
  | replied (rid : Nat) (msg : String)
deriving DecidableEq

/-- server.py line 114: int(message[1:].split(']')[0]), with the exception
branch as Option.none. -/
def requestNumOf (message : String) : Option Int :=
  pyIntList ((message.toList.drop 1).takeWhile (fun ch => ch != ']'))

/-- One iteration of handle_client's read loop on a received raw line
(server.py lines 100-134): decode/strip, the 10% drop check, format
parsing and the reply.  `sample` is the value random.random() returned. -/
def handleLine (sample : ℚ) (clientId : Nat) (raw : String) (st : ServerState) :
    (LineResult × Option ServerLogEntry) × ServerState :=
  let message := pyStrip raw
  if sample < pDrop then
    ((LineResult.dropped, some (ServerLogEntry.ignored message)), st)
  else
    match requestNumOf message with
    | Option.none => ((LineResult.skipped, Option.none), st)
    | some n =>
        let rid := (getNextResponseId st).1
        let st1 := (getNextResponseId st).2
        ((LineResult.replied rid (pongMsg rid n clientId),
          some (ServerLogEntry.exchange message (pongMsg rid n clientId))), st1)

/-- One tick of keepalive_task (server.py lines 150-173): skip when the
registry is empty, else allocate one id, broadcast, and delete every
writer whose write failed.  `writeOk` tells which writers accept a write. -/
def keepaliveTick (writeOk : Nat → Bool) (st : ServerState) :
    Option (Nat × String) × List Nat × ServerState :=
  if st.clients.isEmpty then (Option.none, [], st)
  else
    let rid := (getNextResponseId st).1
    let st1 := (getNextResponseId st).2
    let msg := keepaliveMsg rid
    let disconnected := (st1.clients.filter (fun p => ¬ writeOk p.1)).map Prod.fst
    let clients1 := disconnected.foldl (fun c w => c.filter (fun p => p.1 ≠ w)) st1.clients
    (some (rid, msg), disconnected, { st1 with clients := clients1 })

/-! ## Serialized server traces

asyncio interleaves the concurrently running client handlers and the
keepalive broadcaster cooperatively; each response-id allocation together
with the construction of its message happens with no intervening await, so
any execution is a serialization of the atomic events below. -/

/-- An atomic observable server event: accepting a connection, one handler
loop iteration on a line, one keepalive tick, or a handler's cleanup. -/
inductive ServerEvent where
  | accept (w : Nat)
  | line (clientId : Nat) (sample : ℚ) (raw : String)
  | tick (writeOk : Nat → Bool)
  | disconnect (w : Nat)

/-- An outbound server message together with the response id stamped on it. -/
structure OutMsg where
  rid : Nat
  text : String
deriving DecidableEq

/-- Effect of one atomic server event: the outbound messages it emits and
the successor state. -/
def stepServer (ev : ServerEvent) (st : ServerState) : List OutMsg × ServerState :=
  match ev with
  | ServerEvent.accept w => ([], (registerClient w st).2)
  | ServerEvent.line cid sample raw =>
      let r := handleLine sample cid raw st
      match r.1.1 with
      | LineResult.replied rid m => ([⟨rid, m⟩], r.2)
      | _ => ([], r.2)
  | ServerEvent.tick writeOk =>
      let r := keepaliveTick writeOk st
      match r.1 with
      | some (rid, m) => ([⟨rid, m⟩], r.2.2)
      | Option.none => ([], r.2.2)
  | ServerEvent.disconnect w =>
      match handlerCleanup w st with
      | Except.ok st1 => ([], st1)
      | Except.error _ => ([], st)

/-- All outbound messages of a serialized event sequence, in send order. -/
def serverTrace : List ServerEvent → ServerState → List OutMsg × ServerState
  | [], st => ([], st)
  | ev :: evs, st =>
      let r := stepServer ev st
      let rest := serverTrace evs r.2
      (r.1 ++ rest.1, rest.2)

/-! ## Client state (client.py, TCPClient) -/

/-- The client's writer slot: self.writer is None before the first connect,
a live StreamWriter while connected, and a closed-but-still-referenced
StreamWriter after reconnect closed it (reconnect never sets it to None). -/
inductive WriterSlot where
  | none
  | closed
  | live
deriving DecidableEq

/-- Client-side mutable state: the per-instance request counter and the
writer slot.  (reader mirrors writer and is not tracked separately.) -/
structure ClientState where
  requestCounter : Nat
  writer : WriterSlot
deriving DecidableEq

/-- A freshly constructed TCPClient: counter 0, no connection. -/
def freshClient : ClientState :=
  { requestCounter := 0, writer := WriterSlot.none }

/-- TCPClient.connect: on success install a fresh live connection and return
True; on ConnectionError leave the state untouched and return False.
`ok` is whether open_connection succeeds. -/
def connect (ok : Bool) (st : ClientState) : Bool × ClientState :=
  if ok then (true, { st with writer := WriterSlot.live }) else (false, st)

/-- Reconnect retry bound (client.py line 169, max_retries = 5). -/
def maxRetries : Nat := 5

/-- Pause between reconnect attempts (client.py lines 175/180, sleep(1)). -/
def reconnectPause : ℚ := 1

/-- The while-loop of TCPClient.reconnect: `remaining` is
max_retries - retries; `i` indexes the connection attempts into the
outcome oracle.  Returns (success, attempts made, pauses slept, state). -/
def reconnectLoop (oracle : Nat → Bool) : Nat → Nat → ClientState → Bool × Nat × List ℚ × ClientState
  | _, 0, st => (false, 0, [], st)
  | i, r + 1, st =>
      let c := connect (oracle i) st
      if c.1 then (true, 1, [], c.2)
      else
        let rest := reconnectLoop oracle (i + 1) r c.2
        (rest.1, rest.2.1 + 1, reconnectPause :: rest.2.2.1, rest.2.2.2)

/-- TCPClient.reconnect (client.py lines 159-182): close the stale handle if
one exists (the slot keeps referencing the closed writer), then retry
connecting up to max_retries times with a 1 second pause per failure. -/
def reconnect (oracle : Nat → Bool) (st : ClientState) : Bool × Nat × List ℚ × ClientState :=
  let st1 := if st.writer = WriterSlot.none then st else { st with writer := WriterSlot.closed }
  reconnectLoop oracle 0 maxRetries st1

/-- Reply-wait bound of client.py line 116 (wait_for ..., timeout=2.0). -/
def clientReplyTimeout : ℚ := 2

/-- The short follow-up read after a keepalive, client.py line 130
(wait_for ..., timeout=0.1). -/
def keepaliveFollowupTimeout : ℚ := mkRat 1 10

/-- asyncio.wait_for(readuntil, timeout) on the next incoming line: the
line is delivered iff it arrives strictly before the timeout elapses;
otherwise TimeoutError, modelled as Option.none.  `arrival` is the next
line together with its arrival delay, if any line arrives at all. -/
def awaitLine (timeout : ℚ) (arrival : Option (ℚ × String)) : Option String :=
  match arrival with
  | Option.none => Option.none
  | some (t, line) => if t < timeout then some line else Option.none

/-- Audit-log entries the client writes (TCPClient._write_log): a
request/response (or request/timeout-marker) pair, or a keepalive push
entry whose request fields are empty. -/
inductive ClientLogEntry where
  | pair (request response : String)
  | push (message : String)
deriving DecidableEq

/-- How one call of TCPClient.send_ping ended. -/
inductive SendOutcome where
  | noConnection
  | reconnected (success : Bool)
  | completed
deriving DecidableEq

/-- Observable effect of one send_ping call: how it ended, the request
lines actually written, and the audit-log entries appended, in order. -/
structure PingResult where
  outcome : SendOutcome
  sent : List String
  logs : List ClientLogEntry
deriving DecidableEq

/-- TCPClient.send_ping (client.py lines 94-157).  `first` is the next
incoming line with its arrival delay (for the 2.0 s wait), `second` the
line after it (for the 0.1 s post-keepalive read), `oracle` feeds a
reconnect if one is entered.  A writer slot holding a closed writer is
truthy, so the guard passes and drain raises ConnectionError. -/
def sendPing (first second : Option (ℚ × String)) (oracle : Nat → Bool) (st : ClientState) :
    PingResult × ClientState :=
  match st.writer with
  | WriterSlot.none => (⟨SendOutcome.noConnection, [], []⟩, st)
  | WriterSlot.closed =>
      let r := reconnect oracle st
      (⟨SendOutcome.reconnected r.1, [], []⟩, r.2.2.2)
  | WriterSlot.live =>
      let request := "[" ++ toString st.requestCounter ++ "] PING"
      let st1 := { st with requestCounter := st.requestCounter + 1 }
      match awaitLine clientReplyTimeout first with
      | Option.none =>
          (⟨SendOutcome.completed, [request], [ClientLogEntry.pair request "(таймаут)"]⟩, st1)
      | some resp =>
          if pyIn "keepalive" resp then
            match awaitLine keepaliveFollowupTimeout second with
            | some resp2 =>
                (⟨SendOutcome.completed, [request],
                  [ClientLogEntry.push resp, ClientLogEntry.pair request resp2]⟩, st1)
            | Option.none =>
                (⟨SendOutcome.completed, [request],
                  [ClientLogEntry.push resp, ClientLogEntry.pair request resp]⟩, st1)
          else
            (⟨SendOutcome.completed, [request], [ClientLogEntry.pair request resp]⟩, st1)

/-- n consecutive send_ping cycles on which the correlated reply arrives
after 1 s (within the 2 s bound); collects every request line written. -/
def runPings : Nat → ClientState → List String × ClientState
  | 0, st => ([], st)
  | n + 1, st =>
      let r := sendPing (some (1, "reply")) Option.none (fun _ => true) st
      let rest := runPings n r.2
      (r.1.sent ++ rest.1, rest.2)

/-! ## Audit-log file model (run methods of both roles) -/

/-- Opening the log with mode "w" and writing the empty string: the prior
contents are discarded. -/
def truncateLog (_ : List String) : List String := []

/-- One _write_log call: open with mode "a" and append one line. -/
def appendLog (f : List String) (line : String) : List String := f ++ [line]

/-- File effect of one TCPServer.run invocation (server.py lines 190-191
truncate once, then every _write_log appends): prior contents are
replaced by this run's entries. -/
def serverRunLog (entries : List String) (prior : List String) : List String :=
  entries.foldl appendLog (truncateLog prior)

/-- File effect of one TCPClient.run invocation (client.py lines 231-232
truncate once, then every _write_log appends). -/
def clientRunLog (entries : List String) (prior : List String) : List String :=
  entries.foldl appendLog (truncateLog prior)

/-! ## Helper lemmas -/

/-- Folding appendLog over entries appends them in order. -/
lemma foldl_appendLog (es : List String) (acc : List String) :
    es.foldl appendLog acc = acc ++ es := by
  induction es generalizing acc with
  | nil => simp
  | cons e es ih => simp [List.foldl, appendLog, ih]

/-- takeWhile of not-a-bracket stops exactly at the first ']'. -/
lemma takeWhile_ne_append (l r : List Char) (hl : ']' ∉ l) :
    (l ++ ']' :: r).takeWhile (fun ch => ch != ']') = l := by
  induction l with
  | nil => simp
  | cons a as ih =>
      simp only [List.mem_cons, not_or] at hl
      have ha : ¬ a = ']' := fun h => hl.1 h.symm
      simp [List.takeWhile_cons, ha, ih hl.2]

/-- Each atomic server event emits messages whose ids continue the
response counter, and advances the counter by the number emitted. -/
lemma stepServer_rids (ev : ServerEvent) (st : ServerState) :
    (stepServer ev st).1.map OutMsg.rid =
      List.range' st.responseCounter (stepServer ev st).1.length ∧
    (stepServer ev st).2.responseCounter =
      st.responseCounter + (stepServer ev st).1.length := by
  cases ev with
  | accept w => simp [stepServer, registerClient, getNextClientId]
  | line cid sample raw =>
      by_cases h : sample < pDrop
      · simp [stepServer, handleLine, h]
      · cases hr : requestNumOf (pyStrip raw) with
        | none => simp [stepServer, handleLine, h, hr]
        | some n => simp [stepServer, handleLine, h, hr, getNextResponseId]
  | tick writeOk =>
      by_cases h : st.clients.isEmpty
      · simp [stepServer, keepaliveTick, h]
      · simp [stepServer, keepaliveTick, h, getNextResponseId]
  | disconnect w =>
      by_cases h : (st.clients.lookup w).isSome
      · simp [stepServer, handlerCleanup, h]
      · simp [stepServer, handlerCleanup, h]

/-- Over a whole serialized trace the emitted ids are consecutive from the
starting counter value. -/
lemma serverTrace_rids (evs : List ServerEvent) (st : ServerState) :
    (serverTrace evs st).1.map OutMsg.rid =
      List.range' st.responseCounter (serverTrace evs st).1.length ∧
    (serverTrace evs st).2.responseCounter =
      st.responseCounter + (serverTrace evs st).1.length := by
  induction evs generalizing st with
  | nil => simp [serverTrace]
  | cons ev evs ih =>
      obtain ⟨h1, h2⟩ := stepServer_rids ev st
      obtain ⟨h3, h4⟩ := ih (stepServer ev st).2
      constructor
      · simp only [serverTrace, List.map_append, List.length_append]
        rw [h1, h3, h2, List.range'_append_1, Nat.add_comm]
      · simp only [serverTrace, List.length_append]
        rw [h4, h2]
        omega

/-- The reconnect loop makes at most `r` connection attempts. -/
lemma reconnectLoop_attempts_le (oracle : Nat → Bool) (i r : Nat) (st : ClientState) :
    (reconnectLoop oracle i r st).2.1 ≤ r := by
  induction r generalizing i st with
  | zero => simp [reconnectLoop]
  | succ r ih =>
      cases h : oracle i with
      | true => simp [reconnectLoop, connect, h]
      | false =>
          simp only [reconnectLoop, connect, h]
          simp only [Bool.false_eq_true, if_false]
          have := ih (i + 1) st
          omega

/-- Every pause the reconnect loop sleeps is the fixed 1 second pause. -/
lemma reconnectLoop_pauses (oracle : Nat → Bool) (i r : Nat) (st : ClientState) :
    ∀ p ∈ (reconnectLoop oracle i r st).2.2.1, p = reconnectPause := by
  induction r generalizing i st with
  | zero => simp [reconnectLoop]
  | succ r ih =>
      cases h : oracle i with
      | true => simp [reconnectLoop, connect, h]
      | false =>
          simp only [reconnectLoop, connect, h]
          simp only [Bool.false_eq_true, if_false]
          intro p hp
          rcases List.mem_cons.mp hp with h1 | h2
          · exact h1
          · exact ih (i + 1) st p h2

/-- A failed reconnect loop leaves the client state exactly as it entered
(failed connect attempts never mutate the state). -/
lemma reconnectLoop_fail_state (oracle : Nat → Bool) (i r : Nat) (st : ClientState) :
    (reconnectLoop oracle i r st).1 = false → (reconnectLoop oracle i r st).2.2.2 = st := by
  induction r generalizing i st with
  | zero => intro _; rfl
  | succ r ih =>
      cases h : oracle i with
      | true => simp [reconnectLoop, connect, h]
      | false =>
          simp only [reconnectLoop, connect, h]
          simp only [Bool.false_eq_true, if_false]
          exact ih (i + 1) st

/-- When every connection attempt fails, the loop runs all `r` attempts,
pauses `r` times, and reports failure. -/
lemma reconnectLoop_allfail (oracle : Nat → Bool) (i r : Nat) (st : ClientState)
    (h : ∀ j, oracle j = false) :
    reconnectLoop oracle i r st = (false, r, List.replicate r reconnectPause, st) := by
  induction r generalizing i st with
  | zero => rfl
  | succ r ih =>
      simp [reconnectLoop, connect, h i, ih (i + 1) st, List.replicate_succ]

/-- The reconnect loop never touches the request counter. -/
lemma reconnectLoop_counter (oracle : Nat → Bool) (i r : Nat) (st : ClientState) :
    (reconnectLoop oracle i r st).2.2.2.requestCounter = st.requestCounter := by
  induction r generalizing i st with
  | zero => rfl
  | succ r ih =>
      cases h : oracle i with
      | true => simp [reconnectLoop, connect, h]
      | false =>
          simp only [reconnectLoop, connect, h]
          simp only [Bool.false_eq_true, if_false]
          exact ih (i + 1) st

/-- TCPClient.reconnect never touches the request counter (client.py lines
159-182 only manipulate the connection, never self.request_counter). -/
lemma reconnect_counter (oracle : Nat → Bool) (st : ClientState) :
    (reconnect oracle st).2.2.2.requestCounter = st.requestCounter := by
  unfold reconnect
  by_cases h : st.writer = WriterSlot.none
  · simp only [h, if_pos rfl]
    exact reconnectLoop_counter oracle 0 maxRetries st
  · simp only [if_neg h]
    exact reconnectLoop_counter oracle 0 maxRetries _

/-- A send cycle on a live connection whose correlated reply arrives after
1 s: the numbered request goes out once and is logged with the reply. -/
lemma sendPing_live_reply (st : ClientState) (h : st.writer = WriterSlot.live) :
    sendPing (some (1, "reply")) Option.none (fun _ => true) st =
      (⟨SendOutcome.completed, ["[" ++ toString st.requestCounter ++ "] PING"],
        [ClientLogEntry.pair ("[" ++ toString st.requestCounter ++ "] PING") "reply"]⟩,
       { st with requestCounter := st.requestCounter + 1 }) := by
  obtain ⟨c, w⟩ := st
  cases w with
  | live =>
      show sendPing (some (1, "reply")) Option.none (fun _ => true) ⟨c, WriterSlot.live⟩ = _
      simp only [sendPing]
      have h1 : awaitLine clientReplyTimeout (some (1, "reply")) = some "reply" := by decide
      have h2 : pyIn "keepalive" "reply" = false := by decide
      rw [h1]
      simp [h2]
  | none => exact absurd h (by simp)
  | closed => exact absurd h (by simp)

/-- Request lines written by n consecutive reply-received cycles on a live
connection: consecutive numbers continuing the current counter. -/
lemma runPings_sent (n : Nat) (st : ClientState) (h : st.writer = WriterSlot.live) :
    (runPings n st).1 =
      (List.range' st.requestCounter n).map (fun k => "[" ++ toString k ++ "] PING") ∧
    (runPings n st).2 = ⟨st.requestCounter + n, WriterSlot.live⟩ := by
  induction n generalizing st with
  | zero =>
      obtain ⟨c, w⟩ := st
      cases w with
      | live => simp [runPings]
      | none => exact absurd h (by simp)
      | closed => exact absurd h (by simp)
  | succ n ih =>
      obtain ⟨c, w⟩ := st
      cases w with
      | live =>
          have hs := sendPing_live_reply ⟨c, WriterSlot.live⟩ rfl
          have hrec := ih ⟨c + 1, WriterSlot.live⟩ rfl
          simp only [runPings, hs]
          refine ⟨?_, ?_⟩
          · simp only [hrec.1]
            rw [List.range'_succ c n 1]
            simp
          · simp only [hrec.2]
            congr 1
            omega
      | none => exact absurd h (by simp)
      | closed => exact absurd h (by simp)

/-! ## Claim theorems -/

/-- C1: across all outbound messages a server instance sends — replies from
every concurrently handled connection plus keepalives combined, in any
serialized interleaving of the handlers and the broadcaster — the response
ids form the sequence 0, 1, 2, ...: strictly increasing by 1 starting at 0,
with no id ever repeated. -/
theorem c1_response_ids_sequential (evs : List ServerEvent) :
    (serverTrace evs freshServer).1.map OutMsg.rid =
      List.range (serverTrace evs freshServer).1.length ∧
    ((serverTrace evs freshServer).1.map OutMsg.rid).Nodup := by
  have h := (serverTrace_rids evs freshServer).1
  have h0 : freshServer.responseCounter = 0 := rfl
  rw [h0] at h
  constructor
  · rw [h, List.range_eq_range']
  · rw [h]
    exact List.nodup_range' 0 _ 1 (by norm_num)

/-- C9: each role's run method truncates the audit log exactly once at
start and thereafter only appends, so running a role twice with the same
log path leaves exactly the second run's entries. -/
theorem c9_log_truncated_once (es1 es2 prior : List String) :
    serverRunLog es2 (serverRunLog es1 prior) = es2 ∧
    clientRunLog es2 (clientRunLog es1 prior) = es2 ∧
    serverRunLog es2 prior = es2 ∧ clientRunLog es2 prior = es2 := by
  refine ⟨?_, ?_, ?_, ?_⟩ <;>
    simp [serverRunLog, clientRunLog, truncateLog, foldl_appendLog]

/-- C5: the drop decision fires exactly when the sampled random value is
below the fixed threshold 0.10; a dropped line gets an audit-log entry
marking it ignored, no reply is produced, and the loop continues with the
state unchanged (no response id is consumed). -/
theorem c5_drop_branch (sample : ℚ) (clientId : Nat) (raw : String) (st : ServerState) :
    pDrop = 1/10 ∧
    ((handleLine sample clientId raw st).1.1 = LineResult.dropped ↔ sample < 1/10) ∧
    (sample < 1/10 →
      (handleLine sample clientId raw st).1 =
        (LineResult.dropped, some (ServerLogEntry.ignored (pyStrip raw))) ∧
      (handleLine sample clientId raw st).2 = st) := by
  have hp : pDrop = 1/10 := by
    show mkRat 1 10 = 1/10
    rw [Rat.mkRat_eq_div]
    norm_num
  refine ⟨hp, ?_, ?_⟩
  · constructor
    · intro h
      rw [← hp]
      by_contra hs
      cases hr : requestNumOf (pyStrip raw) with
      | none => simp [handleLine, hs, hr] at h
      | some n => simp [handleLine, hs, hr] at h
    · intro h
      rw [← hp] at h
      simp [handleLine, h]
  · intro h
    rw [← hp] at h
    exact ⟨by simp [handleLine, h], by simp [handleLine, h]⟩

/-- C5 witness: a concrete sample below the threshold is dropped and logged. -/
theorem c5_drop_branch_witness :
    (mkRat 1 20 : ℚ) < 1/10 ∧
    (handleLine (mkRat 1 20) 1 "[0] PING" freshServer).1 =
      (LineResult.dropped, some (ServerLogEntry.ignored (pyStrip "[0] PING"))) ∧
    (handleLine (mkRat 1 20) 1 "[0] PING" freshServer).2 = freshServer := by
  have hlt : (mkRat 1 20 : ℚ) < 1/10 := by
    rw [Rat.mkRat_eq_div]
    norm_num
  exact ⟨hlt, (c5_drop_branch (mkRat 1 20) 1 "[0] PING" freshServer).2.2 hlt⟩

/-- C4 counterexample: the drop decision (server.py line 106) is taken
before format validation (line 114), so a malformed line that the drop
branch selects does get an audit-log entry, contradicting the claim that a
malformed line never produces a log entry. -/
theorem c4_counterexample :
    requestNumOf (pyStrip "hello") = Option.none ∧
    (mkRat 1 20 : ℚ) < pDrop ∧
    (handleLine (mkRat 1 20) 1 "hello" freshServer).1.2 =
      some (ServerLogEntry.ignored "hello") := by
  refine ⟨by decide, by decide, by decide⟩

/-- C4 amended: a malformed line not selected by the drop decision is
skipped silently — no reply, no log entry, state unchanged (the parse
failure is caught, modelled by requestNumOf returning Option.none); a
malformed line selected by the drop decision is logged as dropped and
still gets no reply. -/
theorem c4_malformed_skipped (sample : ℚ) (clientId : Nat) (raw : String) (st : ServerState)
    (hmal : requestNumOf (pyStrip raw) = Option.none) :
    (¬ sample < pDrop →
       handleLine sample clientId raw st = ((LineResult.skipped, Option.none), st)) ∧
    (sample < pDrop →
       (handleLine sample clientId raw st).1 =
         (LineResult.dropped, some (ServerLogEntry.ignored (pyStrip raw))) ∧
       (handleLine sample clientId raw st).2 = st) := by
  constructor
  · intro h
    simp [handleLine, h, hmal]
  · intro h
    exact ⟨by simp [handleLine, h], by simp [handleLine, h]⟩

/-- C4 witness: the malformed line "hello" with a sample that survives the
drop decision is skipped with no reply, no log entry, no state change. -/
theorem c4_malformed_skipped_witness :
    requestNumOf (pyStrip "hello") = Option.none ∧
    ¬ (mkRat 1 2 : ℚ) < pDrop ∧
    handleLine (mkRat 1 2) 1 "hello" freshServer =
      ((LineResult.skipped, Option.none), freshServer) :=
  ⟨by decide, by decide,
   (c4_malformed_skipped (mkRat 1 2) 1 "hello" freshServer (by decide)).1 (by decide)⟩

/-- C10: the server's request validation checks only that the characters
between index 1 and the first ']' parse as an integer: whatever the first
character is, and whether or not the token PING appears, such a line that
survives the drop decision is answered with a PONG reply echoing the
parsed integer as the request number. -/
theorem c10_lenient_validation (sample : ℚ) (clientId : Nat) (message : String)
    (c : Char) (numStr rest : String) (n : Int) (st : ServerState)
    (hshape : message.toList = c :: (numStr.toList ++ ']' :: rest.toList))
    (hnum : pyInt numStr = some n)
    (hnb : ']' ∉ numStr.toList)
    (hdrop : ¬ sample < pDrop)
    (hstrip : pyStrip message = message) :
    handleLine sample clientId message st =
      ((LineResult.replied st.responseCounter (pongMsg st.responseCounter n clientId),
        some (ServerLogEntry.exchange message (pongMsg st.responseCounter n clientId))),
       { st with responseCounter := st.responseCounter + 1 }) := by
  have hreq : requestNumOf message = some n := by
    unfold requestNumOf
    rw [hshape]
    simp only [List.drop_succ_cons, List.drop_zero]
    rw [takeWhile_ne_append numStr.toList rest.toList hnb]
    exact hnum
  simp [handleLine, hdrop, hstrip, hreq, getNextResponseId]

/-- C10 witness: "A42] hello" — first character not '[', no PING token —
is accepted and answered with a PONG echoing 42. -/
theorem c10_lenient_validation_witness :
    ("A42] hello").toList = 'A' :: (("42").toList ++ ']' :: (" hello").toList) ∧
    pyInt "42" = some 42 ∧
    (']' ∉ ("42").toList) ∧
    ¬ (mkRat 1 2 : ℚ) < pDrop ∧
    pyStrip "A42] hello" = "A42] hello" ∧
    handleLine (mkRat 1 2) 7 "A42] hello" freshServer =
      ((LineResult.replied freshServer.responseCounter
          (pongMsg freshServer.responseCounter 42 7),
        some (ServerLogEntry.exchange "A42] hello"
          (pongMsg freshServer.responseCounter 42 7))),
       { freshServer with responseCounter := freshServer.responseCounter + 1 }) :=
  ⟨by decide, by decide, by decide, by decide, by decide,
   c10_lenient_validation (mkRat 1 2) 7 "A42] hello" 'A' "42" " hello" 42 freshServer
     (by decide) (by decide) (by decide) (by decide) (by decide)⟩

/-- C2 counterexample: after one completed ping (request number 0), a
connection-level failure and a successful reconnect, the first ping on the
brand-new connection is numbered 1, not 0 — TCPClient.reconnect never
resets self.request_counter, so numbering does not restart at 0 for a new
connection established by reconnect. -/
theorem c2_counterexample :
    ((sendPing (some (1, "[0/0] PONG (1)")) Option.none (fun _ => true)
        ⟨0, WriterSlot.live⟩).2.requestCounter = 1) ∧
    ((sendPing Option.none Option.none (fun _ => true)
        ⟨1, WriterSlot.closed⟩).2 = ⟨1, WriterSlot.live⟩) ∧
    ((sendPing (some (1, "[1/1] PONG (1)")) Option.none (fun _ => true)
        ⟨1, WriterSlot.live⟩).1.sent = ["[1] PING"]) ∧
    ¬ (["[1] PING"] = ["[0] PING"]) := by
  refine ⟨by decide, by decide, by decide, by decide⟩

/-- C2 amended: within one connection the request numbers embedded in the
client's pings increase by exactly 1 per successfully sent ping, starting
from the instance's current counter — 0 for the first connection of the
instance — and the counter is NOT reset when a new connection is
established after a reconnect: reconnect leaves it untouched, so
numbering continues across connections. -/
theorem c2_request_numbering (n : Nat) (st : ClientState) (oracle : Nat → Bool) :
    (st.writer = WriterSlot.live →
       (runPings n st).1 =
         (List.range' st.requestCounter n).map (fun k => "[" ++ toString k ++ "] PING")) ∧
    (reconnect oracle st).2.2.2.requestCounter = st.requestCounter := by
  exact ⟨fun h => (runPings_sent n st h).1, reconnect_counter oracle st⟩

/-- C2 witness: two pings from a fresh connection are numbered 0 and 1,
and a (failed) reconnect leaves the counter at its current value 2. -/
theorem c2_request_numbering_witness :
    (ClientState.writer ⟨0, WriterSlot.live⟩ = WriterSlot.live) ∧
    (runPings 2 ⟨0, WriterSlot.live⟩).1 =
      (List.range' 0 2).map (fun k => "[" ++ toString k ++ "] PING") ∧
    (reconnect (fun _ => false) ⟨2, WriterSlot.live⟩).2.2.2.requestCounter = 2 :=
  ⟨rfl, (c2_request_numbering 2 ⟨0, WriterSlot.live⟩ (fun _ => false)).1 rfl,
   (c2_request_numbering 2 ⟨2, WriterSlot.live⟩ (fun _ => false)).2⟩

/-- C3: when the keepalive line "[3] keepalive" arrives during the 2 s
reply wait and no further line arrives within the 0.1 s follow-up read,
send_ping logs the keepalive as its own push entry (that part of the claim
holds), but then also logs the request/response pair entry with the
keepalive text as the correlated response (client.py lines 137-144: after
the pass, response_msg still holds the keepalive), and the remaining wait
was cut to 0.1 s rather than left pending — contradicting the claim that
the pair entry never records the keepalive text. -/
theorem c3_keepalive_taken_as_reply :
    keepaliveFollowupTimeout = 1/10 ∧
    pyIn "keepalive" "[3] keepalive" = true ∧
    (sendPing (some (1, "[3] keepalive")) Option.none (fun _ => true)
        ⟨0, WriterSlot.live⟩).1.logs =
      [ClientLogEntry.push "[3] keepalive",
       ClientLogEntry.pair "[0] PING" "[3] keepalive"] := by
  refine ⟨?_, by decide, by decide⟩
  show mkRat 1 10 = 1/10
  rw [Rat.mkRat_eq_div]
  norm_num

/-- C7: the reply wait uses a 2.0 second timeout; when it expires the cycle
writes exactly one log entry pairing the request with the timeout marker,
the request was sent exactly once (no retry), and the cycle completes so
the next one proceeds, with only the counter advanced. -/
theorem c7_timeout_cycle (first second : Option (ℚ × String)) (oracle : Nat → Bool)
    (st : ClientState)
    (hlive : st.writer = WriterSlot.live)
    (hexp : awaitLine clientReplyTimeout first = Option.none) :
    clientReplyTimeout = 2 ∧
    sendPing first second oracle st =
      (⟨SendOutcome.completed, ["[" ++ toString st.requestCounter ++ "] PING"],
        [ClientLogEntry.pair ("[" ++ toString st.requestCounter ++ "] PING") "(таймаут)"]⟩,
       { st with requestCounter := st.requestCounter + 1 }) := by
  refine ⟨rfl, ?_⟩
  obtain ⟨c, w⟩ := st
  cases w with
  | live =>
      show sendPing first second oracle ⟨c, WriterSlot.live⟩ = _
      simp [sendPing, hexp]
  | none => exact absurd hlive (by simp)
  | closed => exact absurd hlive (by simp)

/-- C7 witness: a cycle in which no line at all arrives inside the 2 s
window times out and logs exactly the request/timeout pair. -/
theorem c7_timeout_cycle_witness :
    (ClientState.writer ⟨0, WriterSlot.live⟩ = WriterSlot.live) ∧
    awaitLine clientReplyTimeout Option.none = Option.none ∧
    sendPing Option.none Option.none (fun _ => true) ⟨0, WriterSlot.live⟩ =
      (⟨SendOutcome.completed, ["[" ++ toString (0 : Nat) ++ "] PING"],
        [ClientLogEntry.pair ("[" ++ toString (0 : Nat) ++ "] PING") "(таймаут)"]⟩,
       ⟨1, WriterSlot.live⟩) :=
  ⟨rfl, rfl,
   (c7_timeout_cycle Option.none Option.none (fun _ => true) ⟨0, WriterSlot.live⟩ rfl rfl).2⟩

/-- C6: on a connection-level error, reconnect closes the stale handle and
makes at most 5 connection attempts with a fixed 1 second pause per failed
attempt; when every attempt fails it makes exactly 5 and reports failure,
leaving the closed handle in place, and every subsequent send attempt on
the resulting state either degrades to a no-op (writer slot empty) or
re-enters reconnect (writer slot holds the closed handle) — sendPing is a
total function, so no crash is possible in the model. -/
theorem c6_reconnect_policy (oracle : Nat → Bool) (st : ClientState) :
    maxRetries = 5 ∧ reconnectPause = 1 ∧
    (reconnect oracle st).2.1 ≤ 5 ∧
    (∀ p ∈ (reconnect oracle st).2.2.1, p = (1 : ℚ)) ∧
    ((∀ j, oracle j = false) →
       (reconnect oracle st).1 = false ∧ (reconnect oracle st).2.1 = 5) ∧
    ((reconnect oracle st).1 = false → st.writer ≠ WriterSlot.none →
       (reconnect oracle st).2.2.2.writer = WriterSlot.closed) ∧
    ((reconnect oracle st).1 = false →
       ∀ first second oracle2,
         (sendPing first second oracle2 (reconnect oracle st).2.2.2).1.outcome =
             SendOutcome.noConnection ∨
         ∃ b, (sendPing first second oracle2 (reconnect oracle st).2.2.2).1.outcome =
             SendOutcome.reconnected b) := by
  refine ⟨rfl, rfl, ?_, ?_, ?_, ?_, ?_⟩
  · unfold reconnect
    exact reconnectLoop_attempts_le oracle 0 maxRetries _
  · unfold reconnect
    exact reconnectLoop_pauses oracle 0 maxRetries _
  · intro hall
    unfold reconnect
    rw [reconnectLoop_allfail oracle 0 maxRetries _ hall]
    exact ⟨rfl, rfl⟩
  · intro hfail hwr
    unfold reconnect at hfail ⊢
    rw [reconnectLoop_fail_state oracle 0 maxRetries _ hfail]
    simp [if_neg hwr]
  · intro hfail first second oracle2
    unfold reconnect at hfail ⊢
    rw [reconnectLoop_fail_state oracle 0 maxRetries _ hfail]
    by_cases hwr : st.writer = WriterSlot.none
    · left
      simp only [if_pos hwr]
      obtain ⟨c, w⟩ := st
      simp only at hwr
      rw [hwr]
      rfl
    · right
      simp only [if_neg hwr]
      obtain ⟨c, w⟩ := st
      exact ⟨(reconnect oracle2 ⟨c, WriterSlot.closed⟩).1, rfl⟩

/-- C6 witness: with every attempt failing from a live connection, the
reconnect makes exactly 5 attempts, fails, pauses are all 1 s, and the
next send attempt re-enters reconnect. -/
theorem c6_reconnect_policy_witness :
    (reconnect (fun _ => false) ⟨3, WriterSlot.live⟩).2.1 = 5 ∧
    (reconnect (fun _ => false) ⟨3, WriterSlot.live⟩).1 = false ∧
    (reconnect (fun _ => false) ⟨3, WriterSlot.live⟩).2.2.2.writer = WriterSlot.closed ∧
    ((sendPing Option.none Option.none (fun _ => true)
        (reconnect (fun _ => false) ⟨3, WriterSlot.live⟩).2.2.2).1.outcome =
          SendOutcome.noConnection ∨
     ∃ b, (sendPing Option.none Option.none (fun _ => true)
        (reconnect (fun _ => false) ⟨3, WriterSlot.live⟩).2.2.2).1.outcome =
          SendOutcome.reconnected b) := by
  have h := c6_reconnect_policy (fun _ => false) ⟨3, WriterSlot.live⟩
  have hfail := h.2.2.2.2.1 (fun _ => rfl)
  refine ⟨hfail.2, hfail.1, h.2.2.2.2.2.1 hfail.1 (by simp), ?_⟩
  exact h.2.2.2.2.2.2 hfail.1 Option.none Option.none (fun _ => true)

/-- C8: registry unregistration is not total — TCPServer.handle_client's
cleanup runs del self.clients[writer], which raises KeyError when the
keepalive broadcaster already removed the writer after its keepalive write
failed.  Concretely: one registered connection, the keepalive write to it
fails, the broadcaster removes it, then the handler's cleanup errors. -/
theorem c8_unregister_not_total :
    (keepaliveTick (fun _ => false) ⟨0, 1, [(1, 1)]⟩).2.1 = [1] ∧
    (keepaliveTick (fun _ => false) ⟨0, 1, [(1, 1)]⟩).2.2.clients = [] ∧
    handlerCleanup 1 (keepaliveTick (fun _ => false) ⟨0, 1, [(1, 1)]⟩).2.2 =
      Except.error () :=
  ⟨rfl, rfl, rfl⟩
